import Mathlib

/-!
Shallow embedding of `src/main.cpp` (an MSI Afterburner plugin reading the
Argus Monitor shared-memory segment), together with proofs about the embedded
definitions.

Modelling conventions:
* Win32 handles (`HANDLE`, mapped view pointers) are modelled as `Bool`
  presence flags: `true` means the handle/pointer is non-null.
* The content of the mapped shared-memory segment is modelled by `Segment`;
  since the mapping is a pointer into externally owned memory, the current
  segment content is passed to each poll step separately from the
  presence flag stored in `ArgusState`.
* Numeric sensor values are modelled as `Int` (the claims only compare them to
  zero and to the FLT_MAX sentinel, both of which are exact); wide-character
  labels are modelled as `String` with `wcscmp`-equality as `String` equality.
* A poll iteration that dereferences a null pointer is modelled by `pollStep`
  returning `none` (a fault); a normal iteration returns `some` of the next
  state.
-/

/-- One record of the publisher's flat sensor array
(`ArgusMonitorSensorData`): a wide-character label and a numeric value. -/
structure SensorRecord where
  label : String
  value : Int
  deriving DecidableEq

/-- Content of the published shared-memory structure (`ArgusMonitorData`),
as read through the mapped view.  The sensor array is modelled as a total
function from indices, mirroring the statically-sized array in the mapped
region (every index the code can form reads some bytes of the fixed-size
mapping). -/
structure Segment where
  signature : Nat
  cycleCounter : Nat
  offsetForSensorType : Nat → Nat
  sensorCount : Nat → Nat
  sensorData : Nat → SensorRecord

/-- `ArgusState` from the source: handle to the file mapping, mapped data
pointer, and handle to the data mutex, each modelled as a non-null flag,
plus the `initialized` flag. -/
structure ArgusState where
  initialized : Bool
  file : Bool
  data : Bool
  dataMutex : Bool
  deriving DecidableEq

/-- `ThreadState` from the source: the poll flag, availability flag, last seen
cycle counter, thread handle (presence flag), and the cached borrowed pointer
to the water sensor record, modelled as an index into the segment's sensor
array (`some idx` = points at `SensorData[idx]`, `none` = null). -/
structure ThreadState where
  poll : Bool
  dataAvailable : Bool
  lastCycleCounter : Nat
  thread : Bool
  waterSensor : Option Nat
  deriving DecidableEq

/-- Which of the three OS acquisitions succeed during one `Argus_Init`
attempt: `OpenFileMappingW`, `MapViewOfFile`, `OpenMutexW`. -/
structure AttachEnv where
  openFileOk : Bool
  mapViewOk : Bool
  openMutexOk : Bool
  deriving DecidableEq

/-- `Argus_Deinit`: closes the mutex handle, unmaps the view, closes the file
mapping handle (each only if non-null), then zero-initializes the state
(`s = {}`). The handle-release side effects are modelled separately by
`Argus_Deinit_actions`. -/
def Argus_Deinit (_s : ArgusState) : ArgusState :=
  { initialized := false, file := false, data := false, dataMutex := false }

/-- The OS release operations `Argus_Deinit` performs. -/
inductive ReleaseAction where
  | releaseMutexHandle
  | unmapView
  | closeMappingHandle
  deriving DecidableEq

/-- The sequence of OS release operations `Argus_Deinit s` performs, in
program order: `CloseHandle(dataMutex)` if non-null, then
`UnmapViewOfFile(data)` if non-null, then `CloseHandle(file)` if non-null. -/
def Argus_Deinit_actions (s : ArgusState) : List ReleaseAction :=
  (if s.dataMutex then [ReleaseAction.releaseMutexHandle] else []) ++
  (if s.data then [ReleaseAction.unmapView] else []) ++
  (if s.file then [ReleaseAction.closeMappingHandle] else [])

/-- `Argus_Init`: opens the file mapping, maps the view, opens the mutex, in
that order, assigning each resulting handle into the state as it goes; on the
first failure it returns `false`, with the deferred cleanup
(`defer { if (!success) Argus_Deinit(s); }`) running `Argus_Deinit` on
whatever has been acquired so far.  On success it sets `initialized` and
returns `true`.  Returns the success flag and the state after the call. -/
def Argus_Init (env : AttachEnv) (s0 : ArgusState) : Bool × ArgusState :=
  let s1 : ArgusState := { s0 with file := env.openFileOk }
  if !s1.file then (false, Argus_Deinit s1)
  else if !env.mapViewOk then (false, Argus_Deinit s1)
  else
    let s2 : ArgusState := { s1 with data := true }
    let s3 : ArgusState := { s2 with dataMutex := env.openMutexOk }
    if !s3.dataMutex then (false, Argus_Deinit s3)
    else (true, { s3 with initialized := true })

/-- The fully detached handle state: all handles null, not initialized
(the zero-initialized `ArgusState {}`). -/
def fullyDetached (s : ArgusState) : Prop :=
  s.initialized = false ∧ s.file = false ∧ s.data = false ∧ s.dataMutex = false

/-- The fully attached handle state: all handles valid and initialized. -/
def fullyAttached (s : ArgusState) : Prop :=
  s.initialized = true ∧ s.file = true ∧ s.data = true ∧ s.dataMutex = true

instance (s : ArgusState) : Decidable (fullyDetached s) := by
  unfold fullyDetached; infer_instance

instance (s : ArgusState) : Decidable (fullyAttached s) := by
  unfold fullyAttached; infer_instance

/-- One attach or detach operation on the shared-segment handle. -/
inductive HandleOp where
  | attach (env : AttachEnv)
  | detach

/-- Run one handle operation. -/
def runOp (op : HandleOp) (s : ArgusState) : ArgusState :=
  match op with
  | HandleOp.attach env => (Argus_Init env s).2
  | HandleOp.detach => Argus_Deinit s

/-- Run a sequence of attach/detach operations. -/
def runOps (ops : List HandleOp) (s : ArgusState) : ArgusState :=
  List.foldl (fun t op => runOp op t) s ops

/-- Expected segment signature constant, `0x4D677241` ("ArgM"). -/
def kSignature : Nat := 0x4D677241

/-- `SENSOR_TYPE_TEMPERATURE` from the Argus API headers; the code only uses
it as an index into the per-category offset/count tables, so its numeric
value is irrelevant to the claims.  We fix a representative value. -/
def SENSOR_TYPE_TEMPERATURE : Nat := 2

/-- The target label `L"T Sensor"`. -/
def kWaterSensorLabel : String := "T Sensor"

/-- The scan loop inside `Argus_Thread_Update`, generalized the way the
spec's Sensor Locator describes it: starting at index `i` with `rem`
iterations remaining, return the index of the first record whose label
compares equal to `label`, or `none` if the scan exhausts. -/
def findFrom (data : Nat → SensorRecord) (label : String) (i : Nat) :
    Nat → Option Nat
  | 0 => none
  | rem + 1 =>
    if (data i).label = label then some i
    else findFrom data label (i + 1) rem

/-- The Sensor Locator: reads the category's offset and count from the
segment and linearly scans `SensorData[offset .. offset + count)` for the
first record whose label matches; returns its index, or `none`. -/
def FindSensor (seg : Segment) (category : Nat) (label : String) : Option Nat :=
  findFrom seg.sensorData label (seg.offsetForSensorType category)
    (seg.sensorCount category)

/-- One iteration of the `while (ts.poll)` loop body of
`Argus_Thread_Update`, excluding the trailing `Sleep(250)`:

* if `!as.initialized`, attempt `Argus_Init` (its success is given by `env`);
* evaluate `ts.dataAvailable &= ts.lastCycleCounter <= as.data->CycleCounter`
  — this dereferences `as.data` unconditionally, so if the data pointer is
  null (attach never succeeded) the iteration faults, modelled as `none`;
* if `!ts.dataAvailable`, record the cycle counter, recompute
  `ts.dataAvailable` from the signature and, when the signature matches,
  run the sensor scan under the data mutex, caching the first record
  labelled `"T Sensor"` (the cached pointer is left unchanged when the scan
  finds nothing).

`seg` is the current content of the mapped shared memory.  The thread-state
transition performed once the data pointer has been dereferenced is factored
out as `pollBody`. -/
def pollBody (seg : Segment) (ts : ThreadState) : ThreadState :=
  let ts1 : ThreadState :=
    { ts with dataAvailable :=
        ts.dataAvailable && decide (ts.lastCycleCounter ≤ seg.cycleCounter) }
  if ts1.dataAvailable then ts1
  else
    let ts2 : ThreadState := { ts1 with lastCycleCounter := seg.cycleCounter }
    let ts3 : ThreadState :=
      { ts2 with dataAvailable := decide (seg.signature = kSignature) }
    if ts3.dataAvailable then
      match FindSensor seg SENSOR_TYPE_TEMPERATURE kWaterSensorLabel with
      | some idx => { ts3 with waterSensor := some idx }
      | none => ts3
    else ts3

/-- See `pollBody` for the thread-state transition; `pollStep` adds the
attach attempt and the unconditional dereference of the data pointer. -/
def pollStep (env : AttachEnv) (seg : Segment) (as0 : ArgusState)
    (ts : ThreadState) : Option (ArgusState × ThreadState) :=
  let as := if !as0.initialized then (Argus_Init env as0).2 else as0
  if !as.data then none
  else some (as, pollBody seg ts)

/-- `FLT_MAX`, the host's documented invalid-marker sentinel, exactly:
`(2^24 - 1) * 2^104`. -/
def FLT_MAX : Int := (2 ^ 24 - 1) * 2 ^ 104

/-- `GetSourcesNum`: always 1. -/
def GetSourcesNum : Nat := 1

/-- `MONITORING_SOURCE_DESC` from the Afterburner SDK, restricted to the
fields the plugin writes; the two template strings are included as plain
strings. -/
structure MONITORING_SOURCE_DESC where
  dwVersion : Nat
  szName : String
  szUnits : String
  szFormat : String
  szGroup : String
  dwID : Nat
  dwInstance : Nat
  fltMaxLimit : Int
  fltMinLimit : Int
  szNameTemplate : String
  szGroupTemplate : String
  deriving DecidableEq

/-- `MONITORING_SOURCE_ID_PLUGIN_MOBO` from the Afterburner SDK; the code
only passes this named constant through, so its numeric value is irrelevant
to the claims.  We fix a representative value. -/
def MONITORING_SOURCE_ID_PLUGIN_MOBO : Nat := 0xF6

/-- `GetSourceDesc`: ignores `dwIndex`, overwrites `*pDesc` with the fixed
static metadata (preserving the incoming `dwVersion`), and returns `TRUE`.
The source assigns `.fltMaxLimit = 0.0f` and `.fltMinLimit = 100.0f`.
The units string is `"\x{b0}C"`, i.e. `°C` in the Windows-1252 codepage. -/
def GetSourceDesc (_dwIndex : Nat) (pDesc : MONITORING_SOURCE_DESC) :
    Bool × MONITORING_SOURCE_DESC :=
  (true,
   { dwVersion := pDesc.dwVersion
     szName := "T Sensor"
     szUnits := "°C"
     szFormat := "%.0f"
     szGroup := "MOBO"
     dwID := MONITORING_SOURCE_ID_PLUGIN_MOBO
     dwInstance := 0
     fltMaxLimit := 0
     fltMinLimit := 100
     szNameTemplate := ""
     szGroupTemplate := "" })

/-- `GetSourceData`: ignores `dwIndex`; if the cached water-sensor pointer is
non-null and the pointed-to record's current `Value` is non-zero, return that
value; otherwise return `0`.  `mem` is the current content of the mapped
`SensorData` array (the pointer is dereferenced against live shared
memory). -/
def GetSourceData (mem : Nat → SensorRecord) (ts : ThreadState)
    (_dwIndex : Nat) : Int :=
  match ts.waterSensor with
  | some idx => if (mem idx).value ≠ 0 then (mem idx).value else 0
  | none => 0

/-! Concrete states and segments used to evaluate the definitions on
specific inputs. -/

/-- A fully attached `ArgusState`. -/
def cAsAttached : ArgusState :=
  { initialized := true, file := true, data := true, dataMutex := true }

/-- The zero-initialized (fully detached) `ArgusState {}`. -/
def cAsDetached : ArgusState :=
  { initialized := false, file := false, data := false, dataMutex := false }

/-- The `ThreadState` right after `Argus_Thread_Init` succeeds: polling, no
data available, no cached sensor. -/
def cTsInit : ThreadState :=
  { poll := true, dataAvailable := false, lastCycleCounter := 0,
    thread := true, waterSensor := none }

/-- An arbitrary segment standing for unmapped memory (never dereferenced in
the scenarios that use it). -/
def cSegDummy : Segment :=
  { signature := 0, cycleCounter := 0, offsetForSensorType := fun _ => 0,
    sensorCount := fun _ => 0, sensorData := fun _ => { label := "", value := 0 } }

/-- Post-restart segment: valid signature, cycle counter `5`, temperature
sub-range `[0, 1)` whose only record is no longer labelled `"T Sensor"` but
still holds value `42` at the index the pre-restart cache points to. -/
def cSegC2 : Segment :=
  { signature := kSignature, cycleCounter := 5,
    offsetForSensorType := fun _ => 0, sensorCount := fun _ => 1,
    sensorData := fun i =>
      if i = 0 then { label := "Other", value := 42 }
      else { label := "", value := 0 } }

/-- A `Resolved` thread state: cached sensor at index `0`, last seen cycle
counter `10`. -/
def cTsC2 : ThreadState :=
  { poll := true, dataAvailable := true, lastCycleCounter := 10,
    thread := true, waterSensor := some 0 }

/-- Segment with valid signature and an empty temperature sub-range
(`count = 0`), so the sensor scan finds nothing. -/
def cSegC4 : Segment :=
  { signature := kSignature, cycleCounter := 0,
    offsetForSensorType := fun _ => 0, sensorCount := fun _ => 0,
    sensorData := fun _ => { label := "", value := 0 } }

/-- Segment whose signature does not match the expected constant, though its
table contains a record labelled `"T Sensor"`. -/
def cSegC4bad : Segment :=
  { signature := 0, cycleCounter := 3,
    offsetForSensorType := fun _ => 0, sensorCount := fun _ => 5,
    sensorData := fun _ => { label := "T Sensor", value := 1 } }

/-- Segment with duplicate `"T Sensor"` labels across categories: the
temperature sub-range is `[1, 3)`; index `0` (outside the sub-range) also
carries the label `"T Sensor"`. -/
def cSegC7 : Segment :=
  { signature := kSignature, cycleCounter := 1,
    offsetForSensorType := fun c => if c = SENSOR_TYPE_TEMPERATURE then 1 else 0,
    sensorCount := fun c => if c = SENSOR_TYPE_TEMPERATURE then 2 else 1,
    sensorData := fun i =>
      if i = 0 then { label := "T Sensor", value := 7 }
      else if i = 1 then { label := "Other", value := 8 }
      else if i = 2 then { label := "T Sensor", value := 9 }
      else { label := "", value := 0 } }

/-- Steady-state segment: valid signature, cycle counter `7`, the water
sensor resolved at index `0`. -/
def cSegC9 : Segment :=
  { signature := kSignature, cycleCounter := 7,
    offsetForSensorType := fun _ => 0, sensorCount := fun _ => 1,
    sensorData := fun i =>
      if i = 0 then { label := "T Sensor", value := 42 }
      else { label := "", value := 0 } }

/-- A `Resolved` thread state with last seen cycle counter `5`. -/
def cTsC9 : ThreadState :=
  { poll := true, dataAvailable := true, lastCycleCounter := 5,
    thread := true, waterSensor := some 0 }

/-- An arbitrary incoming `MONITORING_SOURCE_DESC` with `dwVersion = 7`. -/
def cDescIn : MONITORING_SOURCE_DESC :=
  { dwVersion := 7, szName := "", szUnits := "", szFormat := "", szGroup := "",
    dwID := 0, dwInstance := 99, fltMaxLimit := -1, fltMinLimit := -1,
    szNameTemplate := "", szGroupTemplate := "" }

/-! Helper lemmas. -/

/-- `Argus_Init` always ends in a definite state: fully detached on failure,
fully attached on success. -/
theorem argusInit_cases (env : AttachEnv) (s : ArgusState) :
    ((Argus_Init env s).1 = false ∧ fullyDetached (Argus_Init env s).2) ∨
    ((Argus_Init env s).1 = true ∧ fullyAttached (Argus_Init env s).2) := by
  obtain ⟨f, m, x⟩ := env
  cases f <;> cases m <;> cases x <;>
    simp [Argus_Init, Argus_Deinit, fullyDetached, fullyAttached]

/-- Every attach/detach operation leaves the handle fully detached or fully
attached, whatever state it started from. -/
theorem runOp_consistent (op : HandleOp) (s : ArgusState) :
    fullyDetached (runOp op s) ∨ fullyAttached (runOp op s) := by
  cases op with
  | attach env =>
    rcases argusInit_cases env s with ⟨_, h⟩ | ⟨_, h⟩
    · exact Or.inl h
    · exact Or.inr h
  | detach =>
    exact Or.inl (by simp [runOp, Argus_Deinit, fullyDetached])

/-- Soundness of the scan: a hit lies inside the scanned range, carries the
target label, and is the first such index. -/
theorem findFrom_some_spec (d : Nat → SensorRecord) (l : String) :
    ∀ (rem i idx : Nat), findFrom d l i rem = some idx →
      i ≤ idx ∧ idx < i + rem ∧ (d idx).label = l ∧
      ∀ j, i ≤ j → j < idx → (d j).label ≠ l := by
  intro rem
  induction rem with
  | zero => intro i idx h; simp [findFrom] at h
  | succ rem ih =>
    intro i idx h
    rw [findFrom] at h
    by_cases hl : (d i).label = l
    · rw [if_pos hl] at h
      obtain rfl : i = idx := by exact Option.some.inj h
      refine ⟨Nat.le_refl _, by omega, hl, ?_⟩
      intro j hj1 hj2
      omega
    · rw [if_neg hl] at h
      obtain ⟨h1, h2, h3, h4⟩ := ih (i + 1) idx h
      refine ⟨by omega, by omega, h3, ?_⟩
      intro j hj1 hj2
      rcases Nat.eq_or_lt_of_le hj1 with rfl | hj
      · exact hl
      · exact h4 j hj hj2

/-- Completeness of the scan: it returns `none` exactly when no record in the
scanned range carries the target label. -/
theorem findFrom_none_iff (d : Nat → SensorRecord) (l : String) :
    ∀ (rem i : Nat), findFrom d l i rem = none ↔
      ∀ j, i ≤ j → j < i + rem → (d j).label ≠ l := by
  intro rem
  induction rem with
  | zero =>
    intro i
    simp [findFrom]
    intro j hj1 hj2
    omega
  | succ rem ih =>
    intro i
    rw [findFrom]
    by_cases hl : (d i).label = l
    · rw [if_pos hl]
      constructor
      · intro h; exact absurd h (by simp)
      · intro h; exact absurd hl (h i (Nat.le_refl _) (by omega))
    · rw [if_neg hl]
      rw [ih (i + 1)]
      constructor
      · intro h j hj1 hj2
        rcases Nat.eq_or_lt_of_le hj1 with rfl | hj
        · exact hl
        · exact h j hj (by omega)
      · intro h j hj1 hj2
        exact h j (by omega) (by omega)

/-- The scan only looks at records inside the scanned range: replacing any
record outside it does not change the result. -/
theorem findFrom_congr (d d2 : Nat → SensorRecord) (l : String) :
    ∀ (rem i : Nat), (∀ j, i ≤ j → j < i + rem → d j = d2 j) →
      findFrom d l i rem = findFrom d2 l i rem := by
  intro rem
  induction rem with
  | zero => intro i _; rfl
  | succ rem ih =>
    intro i h
    rw [findFrom, findFrom]
    rw [h i (Nat.le_refl _) (by omega)]
    by_cases hl : (d2 i).label = l
    · rw [if_pos hl, if_pos hl]
    · rw [if_neg hl, if_neg hl]
      exact ih (i + 1) fun j hj1 hj2 => h j (by omega) (by omega)

/-- Starting from a consistent handle state, any sequence of attach/detach
operations preserves consistency: the handle is fully detached or fully
attached after every prefix. -/
theorem runOps_consistent (ops : List HandleOp) (s : ArgusState)
    (h : fullyDetached s ∨ fullyAttached s) :
    fullyDetached (runOps ops s) ∨ fullyAttached (runOps ops s) := by
  induction ops generalizing s with
  | nil => simpa [runOps] using h
  | cons op rest ih =>
    have hstep : runOps (op :: rest) s = runOps rest (runOp op s) := rfl
    rw [hstep]
    exact ih (runOp op s) (runOp_consistent op s)

/-! Claim theorems. -/

/-- C6: every `Argus_Init` that fails at any step (mapping object, view
mapping, or mutex cannot be opened) releases all resources acquired so far
before returning, leaving the handle fully detached; a successful attach
leaves it fully attached; and across any sequence of attach/detach cycles the
handle is never observable in a partially-valid state outside its own
attach/detach operations. -/
theorem C6_attach_failure_leaves_fully_detached (env : AttachEnv)
    (s : ArgusState) (ops : List HandleOp) :
    ((Argus_Init env s).1 = false → fullyDetached (Argus_Init env s).2) ∧
    ((Argus_Init env s).1 = true → fullyAttached (Argus_Init env s).2) ∧
    (fullyDetached s ∨ fullyAttached s →
      fullyDetached (runOps ops s) ∨ fullyAttached (runOps ops s)) := by
  refine ⟨?_, ?_, fun h => runOps_consistent ops s h⟩
  · intro h
    rcases argusInit_cases env s with ⟨_, hd⟩ | ⟨ht, _⟩
    · exact hd
    · rw [h] at ht; exact absurd ht (by simp)
  · intro h
    rcases argusInit_cases env s with ⟨hf, _⟩ | ⟨_, ha⟩
    · rw [h] at hf; exact absurd hf (by simp)
    · exact ha

/-- Witness for C6: a concrete attach (all acquisitions succeeding) followed
by a detach, starting from the zero-initialized state, ends consistent. -/
theorem C6_attach_failure_leaves_fully_detached_witness :
    fullyDetached (runOps
      [HandleOp.attach { openFileOk := true, mapViewOk := true, openMutexOk := true },
       HandleOp.detach] cAsDetached) ∨
    fullyAttached (runOps
      [HandleOp.attach { openFileOk := true, mapViewOk := true, openMutexOk := true },
       HandleOp.detach] cAsDetached) :=
  (C6_attach_failure_leaves_fully_detached
      { openFileOk := true, mapViewOk := true, openMutexOk := true } cAsDetached
      [HandleOp.attach { openFileOk := true, mapViewOk := true, openMutexOk := true },
       HandleOp.detach]).2.2 (Or.inl (by decide))

/-- C8: `Argus_Deinit` releases the mutex handle, unmaps the view, and closes
the mapping handle in that order (its action trace is a sublist of that
three-action sequence, each action present exactly when the corresponding
handle is non-null), tolerates null handles, always resets the state to fully
detached, is idempotent, and is a no-op on an already-detached handle. -/
theorem C8_deinit_ordered_idempotent_noop (s : ArgusState) :
    Argus_Deinit s = cAsDetached ∧
    Argus_Deinit (Argus_Deinit s) = Argus_Deinit s ∧
    List.Sublist (Argus_Deinit_actions s)
      [ReleaseAction.releaseMutexHandle, ReleaseAction.unmapView,
       ReleaseAction.closeMappingHandle] ∧
    (ReleaseAction.releaseMutexHandle ∈ Argus_Deinit_actions s ↔
      s.dataMutex = true) ∧
    (ReleaseAction.unmapView ∈ Argus_Deinit_actions s ↔ s.data = true) ∧
    (ReleaseAction.closeMappingHandle ∈ Argus_Deinit_actions s ↔
      s.file = true) ∧
    (fullyDetached s → Argus_Deinit s = s ∧ Argus_Deinit_actions s = []) := by
  obtain ⟨i, f, d, m⟩ := s
  cases i <;> cases f <;> cases d <;> cases m <;> decide

/-- Witness for C8: calling `Argus_Deinit` on the already-detached state is a
no-op that performs no OS release operations. -/
theorem C8_deinit_ordered_idempotent_noop_witness :
    Argus_Deinit cAsDetached = cAsDetached ∧
    Argus_Deinit_actions cAsDetached = [] :=
  (C8_deinit_ordered_idempotent_noop cAsDetached).2.2.2.2.2.2 (by decide)

/-- C9: a poll step taken in the `Resolved` state (`dataAvailable = true`)
with the observed cycle counter greater than or equal to the last seen value
performs no state transition: the availability flag, last seen cycle counter,
and cached sensor reference are all left unchanged, and the Argus handle
state is untouched. -/
theorem C9_steady_state_poll_is_noop (env : AttachEnv) (seg : Segment)
    (as : ArgusState) (ts : ThreadState)
    (h1 : as.initialized = true) (h2 : as.data = true)
    (h3 : ts.dataAvailable = true)
    (h4 : ts.lastCycleCounter ≤ seg.cycleCounter) :
    pollStep env seg as ts = some (as, ts) := by
  obtain ⟨p, da, lcc, th, ws⟩ := ts
  simp only at h3 h4
  subst h3
  simp [pollStep, pollBody, h1, h2, h4]

/-- Witness for C9: a concrete steady-state poll (cycle counter 5 ≤ 7,
resolved sensor at index 0) leaves the state unchanged. -/
theorem C9_steady_state_poll_is_noop_witness :
    pollStep { openFileOk := true, mapViewOk := true, openMutexOk := true }
      cSegC9 cAsAttached cTsC9 = some (cAsAttached, cTsC9) :=
  C9_steady_state_poll_is_noop
    { openFileOk := true, mapViewOk := true, openMutexOk := true }
    cSegC9 cAsAttached cTsC9 rfl rfl rfl (by decide)

/-- Counterexample to C2: a poll that observes the cycle counter `5` strictly
below the last seen value `10` while `Resolved` does NOT clear the cached
sensor reference.  Here re-resolution runs in the same step (the signature
still matches) but the scan no longer finds the label, so `waterSensor`
retains the pre-restart index `0`, and a Value Export read performed after
the restart was detected returns `42` through the pre-restart sensor
record. -/
theorem C2_restart_clears_reference_counterexample :
    cTsC2.dataAvailable = true ∧
    cSegC2.cycleCounter < cTsC2.lastCycleCounter ∧
    pollStep { openFileOk := true, mapViewOk := true, openMutexOk := true }
      cSegC2 cAsAttached cTsC2 =
      some (cAsAttached,
        { poll := true, dataAvailable := true, lastCycleCounter := 5,
          thread := true, waterSensor := some 0 }) ∧
    ¬ (({ poll := true, dataAvailable := true, lastCycleCounter := 5,
          thread := true, waterSensor := some 0 } : ThreadState).waterSensor
        = none) ∧
    GetSourceData cSegC2.sensorData
      { poll := true, dataAvailable := true, lastCycleCounter := 5,
        thread := true, waterSensor := some 0 } 0 = 42 := by
  decide

/-- C2 (amended): when a poll observes the cycle counter strictly below the
last seen value while `Resolved`, the step records the new cycle counter and
recomputes the availability flag from the signature, and re-resolution runs
in the same step when the signature matches; but the cached sensor reference
is only overwritten when the scan finds the target label — otherwise it
retains its pre-restart value (it is never cleared), so a Value Export read
after a detected restart can still go through the pre-restart sensor
record. -/
theorem C2_amended_restart_keeps_reference_unless_refound (env : AttachEnv)
    (seg : Segment) (as : ArgusState) (ts : ThreadState)
    (h1 : as.initialized = true) (h2 : as.data = true)
    (h3 : ts.dataAvailable = true)
    (h4 : seg.cycleCounter < ts.lastCycleCounter) :
    pollStep env seg as ts = some (as,
      { poll := ts.poll
        dataAvailable := decide (seg.signature = kSignature)
        lastCycleCounter := seg.cycleCounter
        thread := ts.thread
        waterSensor :=
          if seg.signature = kSignature then
            match FindSensor seg SENSOR_TYPE_TEMPERATURE kWaterSensorLabel with
            | some idx => some idx
            | none => ts.waterSensor
          else ts.waterSensor }) := by
  obtain ⟨p, da, lcc, th, ws⟩ := ts
  simp only at h3 h4
  subst h3
  have h4x : ¬ (lcc ≤ seg.cycleCounter) := by omega
  by_cases hsig : seg.signature = kSignature
  · cases hfind : FindSensor seg SENSOR_TYPE_TEMPERATURE kWaterSensorLabel with
    | some idx => simp [pollStep, pollBody, h1, h2, h4x, hsig, hfind]
    | none => simp [pollStep, pollBody, h1, h2, h4x, hsig, hfind]
  · simp [pollStep, pollBody, h1, h2, h4x, hsig]

/-- Witness for the amended C2, at the concrete restart scenario of the
counterexample. -/
theorem C2_amended_restart_keeps_reference_unless_refound_witness :
    pollStep { openFileOk := true, mapViewOk := true, openMutexOk := true }
      cSegC2 cAsAttached cTsC2 =
      some (cAsAttached,
        { poll := true, dataAvailable := true, lastCycleCounter := 5,
          thread := true, waterSensor := some 0 }) :=
  (C2_amended_restart_keeps_reference_unless_refound
      { openFileOk := true, mapViewOk := true, openMutexOk := true }
      cSegC2 cAsAttached cTsC2 rfl rfl rfl (by decide)).trans (by decide)

/-- Counterexample to C4: a poll step starting `Unresolved` against a segment
whose signature matches but whose temperature sub-range is empty (the locator
finds nothing) still sets the availability flag — the state becomes
`Resolved` even though the Sensor Locator found no matching record, contrary
to "if the locator finds nothing the state remains Unresolved". -/
theorem C4_resolved_requires_locator_counterexample :
    cTsInit.dataAvailable = false ∧
    FindSensor cSegC4 SENSOR_TYPE_TEMPERATURE kWaterSensorLabel = none ∧
    pollStep { openFileOk := true, mapViewOk := true, openMutexOk := true }
      cSegC4 cAsAttached cTsInit =
      some (cAsAttached,
        { poll := true, dataAvailable := true, lastCycleCounter := 0,
          thread := true, waterSensor := none }) ∧
    ({ poll := true, dataAvailable := true, lastCycleCounter := 0,
       thread := true, waterSensor := none } : ThreadState).dataAvailable
      ≠ false := by
  decide

/-- C4 (amended): for every poll step starting `Unresolved`, the state
becomes `Resolved` exactly when the segment signature equals the expected
constant, regardless of whether the Sensor Locator finds a record; the
current cycle counter is recorded; if the signature mismatches the locator is
never invoked (the step's result is independent of the category tables and
the sensor array) and the cached reference is unchanged; and if the locator
finds nothing the cached reference is left unchanged even though the state
still becomes `Resolved`. -/
theorem C4_amended_resolution_follows_signature_only (env : AttachEnv)
    (seg : Segment) (as : ArgusState) (ts : ThreadState)
    (h1 : as.initialized = true) (h2 : as.data = true)
    (h3 : ts.dataAvailable = false) :
    ∃ ts2 : ThreadState, pollStep env seg as ts = some (as, ts2) ∧
      ts2.dataAvailable = decide (seg.signature = kSignature) ∧
      ts2.lastCycleCounter = seg.cycleCounter ∧
      (seg.signature ≠ kSignature →
        ts2.waterSensor = ts.waterSensor ∧
        ∀ (o c : Nat → Nat) (d : Nat → SensorRecord),
          pollStep env
            { seg with
              offsetForSensorType := o
              sensorCount := c
              sensorData := d } as ts = some (as, ts2)) ∧
      (FindSensor seg SENSOR_TYPE_TEMPERATURE kWaterSensorLabel = none →
        ts2.waterSensor = ts.waterSensor) := by
  obtain ⟨p, da, lcc, th, ws⟩ := ts
  simp only at h3
  subst h3
  by_cases hsig : seg.signature = kSignature
  · cases hfind : FindSensor seg SENSOR_TYPE_TEMPERATURE kWaterSensorLabel with
    | some idx =>
      refine ⟨{ poll := p, dataAvailable := true,
                lastCycleCounter := seg.cycleCounter, thread := th,
                waterSensor := some idx }, ?_, by simp [hsig], rfl, ?_, ?_⟩
      · simp [pollStep, pollBody, h1, h2, hsig, hfind]
      · intro hne; exact absurd hsig hne
      · intro hnone; exact Option.noConfusion hnone
    | none =>
      refine ⟨{ poll := p, dataAvailable := true,
                lastCycleCounter := seg.cycleCounter, thread := th,
                waterSensor := ws }, ?_, by simp [hsig], rfl, ?_, fun _ => rfl⟩
      · simp [pollStep, pollBody, h1, h2, hsig, hfind]
      · intro hne; exact absurd hsig hne
  · refine ⟨{ poll := p, dataAvailable := false,
              lastCycleCounter := seg.cycleCounter, thread := th,
              waterSensor := ws }, ?_, by simp [hsig], rfl, ?_, fun _ => rfl⟩
    · simp [pollStep, pollBody, h1, h2, hsig]
    · exact fun _ => ⟨rfl, fun o c d => by simp [pollStep, pollBody, h1, h2, hsig]⟩

/-- Witness for the amended C4, at a concrete segment whose signature does
not match (so the locator is provably not consulted). -/
theorem C4_amended_resolution_follows_signature_only_witness :
    ∃ ts2 : ThreadState,
      pollStep { openFileOk := true, mapViewOk := true, openMutexOk := true }
        cSegC4bad cAsAttached cTsInit = some (cAsAttached, ts2) ∧
      ts2.dataAvailable = decide (cSegC4bad.signature = kSignature) ∧
      ts2.lastCycleCounter = cSegC4bad.cycleCounter ∧
      (cSegC4bad.signature ≠ kSignature →
        ts2.waterSensor = cTsInit.waterSensor ∧
        ∀ (o c : Nat → Nat) (d : Nat → SensorRecord),
          pollStep { openFileOk := true, mapViewOk := true, openMutexOk := true }
            { cSegC4bad with
              offsetForSensorType := o
              sensorCount := c
              sensorData := d } cAsAttached cTsInit =
            some (cAsAttached, ts2)) ∧
      (FindSensor cSegC4bad SENSOR_TYPE_TEMPERATURE kWaterSensorLabel = none →
        ts2.waterSensor = cTsInit.waterSensor) :=
  C4_amended_resolution_follows_signature_only
    { openFileOk := true, mapViewOk := true, openMutexOk := true }
    cSegC4bad cAsAttached cTsInit rfl rfl rfl

/-- Whenever a poll step returns normally, the resulting thread state is
exactly the `pollBody` transition applied to the incoming thread state. -/
theorem pollStep_some_body (env : AttachEnv) (seg : Segment)
    (as0 as2 : ArgusState) (ts ts2 : ThreadState)
    (h : pollStep env seg as0 ts = some (as2, ts2)) :
    ts2 = pollBody seg ts := by
  obtain ⟨i, f, d, m⟩ := as0
  obtain ⟨a, b, c⟩ := env
  cases i <;> cases f <;> cases d <;> cases m <;> cases a <;> cases b <;>
    cases c <;> simp_all [pollStep, Argus_Init, Argus_Deinit]

/-- C7: for every segment, category and label, the Sensor Locator scans
exactly the category's sub-range `[offset, offset + count)` in increasing
index order and returns the first record there whose label compares equal to
the target, ignoring any matching records outside the sub-range (the result
only depends on the records inside it); if nothing in the sub-range matches
it returns `none`, and in that case a poll step leaves the cached sensor
reference unchanged. -/
theorem C7_findSensor_first_match_in_subrange (seg : Segment) (category : Nat)
    (label : String) :
    (∀ idx, FindSensor seg category label = some idx →
      seg.offsetForSensorType category ≤ idx ∧
      idx < seg.offsetForSensorType category + seg.sensorCount category ∧
      (seg.sensorData idx).label = label ∧
      ∀ j, seg.offsetForSensorType category ≤ j → j < idx →
        (seg.sensorData j).label ≠ label) ∧
    (FindSensor seg category label = none ↔
      ∀ j, seg.offsetForSensorType category ≤ j →
        j < seg.offsetForSensorType category + seg.sensorCount category →
        (seg.sensorData j).label ≠ label) ∧
    (∀ d2 : Nat → SensorRecord,
      (∀ j, seg.offsetForSensorType category ≤ j →
        j < seg.offsetForSensorType category + seg.sensorCount category →
        seg.sensorData j = d2 j) →
      FindSensor { seg with sensorData := d2 } category label =
        FindSensor seg category label) ∧
    (∀ (env : AttachEnv) (as as2 : ArgusState) (ts ts2 : ThreadState),
      FindSensor seg SENSOR_TYPE_TEMPERATURE kWaterSensorLabel = none →
      pollStep env seg as ts = some (as2, ts2) →
      ts2.waterSensor = ts.waterSensor) := by
  refine ⟨?_, ?_, ?_, ?_⟩
  · exact fun idx h =>
      findFrom_some_spec seg.sensorData label (seg.sensorCount category)
        (seg.offsetForSensorType category) idx h
  · exact findFrom_none_iff seg.sensorData label (seg.sensorCount category)
      (seg.offsetForSensorType category)
  · intro d2 hagree
    exact (findFrom_congr seg.sensorData d2 label (seg.sensorCount category)
      (seg.offsetForSensorType category) hagree).symm
  · intro env as as2 ts ts2 hfind hstep
    have hts2 : ts2 = pollBody seg ts := pollStep_some_body env seg as as2 ts ts2 hstep
    subst hts2
    simp only [pollBody]
    split
    · rfl
    · simp only [hfind]
      split
      · rfl
      · rfl

/-- Witness for C7, at a table with duplicate `"T Sensor"` labels across
categories: the temperature sub-range is `[1, 3)`, so the scan returns
index 2, ignoring the matching record at index 0 outside the sub-range. -/
theorem C7_findSensor_first_match_in_subrange_witness :
    cSegC7.offsetForSensorType SENSOR_TYPE_TEMPERATURE ≤ 2 ∧
    2 < cSegC7.offsetForSensorType SENSOR_TYPE_TEMPERATURE +
      cSegC7.sensorCount SENSOR_TYPE_TEMPERATURE ∧
    (cSegC7.sensorData 2).label = kWaterSensorLabel ∧
    ∀ j, cSegC7.offsetForSensorType SENSOR_TYPE_TEMPERATURE ≤ j → j < 2 →
      (cSegC7.sensorData j).label ≠ kWaterSensorLabel :=
  (C7_findSensor_first_match_in_subrange cSegC7 SENSOR_TYPE_TEMPERATURE
    kWaterSensorLabel).1 2 (by decide)

/-- C1 (code bug): with no sensor resolved (`waterSensor` null),
`GetSourceData` returns `0`, not the host's documented invalid-marker
sentinel `FLT_MAX` — even though the function's own comment says `FLT_MAX` is
the "invalid" value.  A genuine zero reading is therefore indistinguishable
from an absent reading. -/
theorem C1_getSourceData_returns_zero_not_sentinel :
    cTsInit.waterSensor = none ∧
    GetSourceData cSegDummy.sensorData cTsInit 0 = 0 ∧
    GetSourceData cSegDummy.sensorData cTsInit 0 ≠ FLT_MAX := by
  refine ⟨rfl, rfl, ?_⟩
  intro h
  simp [GetSourceData, cTsInit, FLT_MAX] at h

/-- C3 (code bug): on a poll iteration where the shared-segment handle is
detached and `Argus_Init` fails (all three acquisitions fail — the publisher
is absent), the loop still evaluates
`ts.dataAvailable &= ts.lastCycleCounter <= as.data->CycleCounter`,
dereferencing the null data pointer: the iteration faults instead of only
attempting the attach.  (`Argus_Init` itself fails cleanly, and the Value
Export path on its own would have returned `0`.) -/
theorem C3_detached_poll_faults_on_null_deref :
    (Argus_Init { openFileOk := false, mapViewOk := false, openMutexOk := false }
      cAsDetached).1 = false ∧
    (Argus_Init { openFileOk := false, mapViewOk := false, openMutexOk := false }
      cAsDetached).2.data = false ∧
    pollStep { openFileOk := false, mapViewOk := false, openMutexOk := false }
      cSegDummy cAsDetached cTsInit = none ∧
    GetSourceData cSegDummy.sensorData cTsInit 0 = 0 := by
  decide

/-- C5 (code bug): `GetSourceDesc` ignores the index and poller state and
returns the fixed static metadata — name `"T Sensor"`, units `"°C"`, group
`"MOBO"`, the motherboard-plugin category id, instance `0` — but the display
range limits are swapped: the code assigns `fltMaxLimit = 0` and
`fltMinLimit = 100`, not minimum `0` / maximum `100` as documented. -/
theorem C5_getSourceDesc_static_metadata_limits_swapped :
    (GetSourceDesc 0 cDescIn).1 = true ∧
    (GetSourceDesc 0 cDescIn).2.dwVersion = cDescIn.dwVersion ∧
    (GetSourceDesc 0 cDescIn).2.szName = "T Sensor" ∧
    (GetSourceDesc 0 cDescIn).2.szUnits = "°C" ∧
    (GetSourceDesc 0 cDescIn).2.szFormat = "%.0f" ∧
    (GetSourceDesc 0 cDescIn).2.szGroup = "MOBO" ∧
    (GetSourceDesc 0 cDescIn).2.dwID = MONITORING_SOURCE_ID_PLUGIN_MOBO ∧
    (GetSourceDesc 0 cDescIn).2.dwInstance = 0 ∧
    (GetSourceDesc 0 cDescIn).2.fltMaxLimit = 0 ∧
    (GetSourceDesc 0 cDescIn).2.fltMinLimit = 100 ∧
    ¬ ((GetSourceDesc 0 cDescIn).2.fltMinLimit = 0 ∧
       (GetSourceDesc 0 cDescIn).2.fltMaxLimit = 100) := by
  decide

/-- C10: the index parameter is ignored entirely and never bounds-checked:
for any two indices and any fixed program state, `GetSourcesNum`,
`GetSourceDesc` and `GetSourceData` produce identical results, while the
plugin reports exactly one source. -/
theorem C10_index_parameter_ignored (i j : Nat) (mem : Nat → SensorRecord)
    (ts : ThreadState) (dIn : MONITORING_SOURCE_DESC) :
    GetSourcesNum = 1 ∧
    GetSourceDesc i dIn = GetSourceDesc j dIn ∧
    GetSourceData mem ts i = GetSourceData mem ts j :=
  ⟨rfl, rfl, rfl⟩
